import Mathlib

/-!
Verification development for the `New_devs_App` revenue service.

The code under scrutiny is `backend/app/services/cache.py`
(`get_revenue_summary`: a cache-aside read path over redis) and
`backend/app/services/reservations.py`
(`calculate_total_revenue` and `calculate_monthly_revenue`: SQL
aggregations over a `reservations` ⋈ `properties` join, each wrapped in a
`try/except` fallback).

Modelling choices, stated once:

* Python dicts flowing through `json.dumps` / `json.loads` are modelled at
  the JSON-value level by the inductive `Json`.  `json.dumps`/`json.loads`
  is a faithful bijection between such dicts and their textual form, so the
  cache stores `Json` values directly; serialization of a `RevenueSummary`
  dict is `serializeSummary`, deserialization is `deserializeSummary`.
* `Decimal` amounts are exact; amounts summed by SQL are modelled as `Int`
  (exact fixed-point, e.g. cents).  The textual rendering the DB driver and
  `str(Decimal(...))` perform is an abstract parameter `decToStr`.
* Python `datetime(year, month, day)` values are `NaiveDateTime` records;
  Python/SQL comparison of such timestamps is field-lexicographic
  (`NaiveDateTime.ltb` / `NaiveDateTime.leb`).
* `r.check_in_date AT TIME ZONE \x27UTC\x27 AT TIME ZONE p.timezone` — the
  reprojection of a stored UTC instant into the property's named timezone —
  is an abstract parameter `localize : String → Int → NaiveDateTime`
  (timezone name and UTC instant to local wall-clock timestamp).
* Every exception source inside the `try:` blocks (database pool setup,
  session acquisition, query execution, the explicit
  `raise Exception("Database pool not available")`) is modelled by the
  aggregation functions receiving `Except DbErr Database`: a `.error e`
  argument is a run in which the body of the `try:` raises `e`.
* Redis faults: `redis_client.get` / `redis_client.setex` raising is
  modelled by the Booleans `readFails` / `writeFails` of
  `get_revenue_summary`; an exception escaping to the caller is the
  `Except.error CacheErr.unavailable` result.
-/

namespace RevSvc

/-- JSON values as produced by `json.dumps` on the dicts of this service:
strings, integers, and objects with ordered fields. -/
inductive Json where
  | str : String → Json
  | num : Int → Json
  | obj : List (String × Json) → Json

/-- The `RevenueSummary` value object
`{property_id, tenant_id, total: decimal-string, currency, count}`
returned by `calculate_total_revenue` and cached by `get_revenue_summary`. -/
structure RevenueSummary where
  property_id : String
  tenant_id : String
  total : String
  currency : String
  count : Nat
deriving DecidableEq, Repr

/-- `json.dumps` of the summary dict, at the JSON-value level: field order
as constructed in `reservations.py`, the decimal total kept as a string. -/
def serializeSummary (s : RevenueSummary) : Json :=
  Json.obj [("property_id", Json.str s.property_id),
            ("tenant_id", Json.str s.tenant_id),
            ("total", Json.str s.total),
            ("currency", Json.str s.currency),
            ("count", Json.num (Int.ofNat s.count))]

/-- `json.loads` of a cached value, read back into the summary shape;
anything not of that exact shape is `none`. -/
def deserializeSummary : Json → Option RevenueSummary
  | Json.obj [("property_id", Json.str p), ("tenant_id", Json.str t),
              ("total", Json.str tot), ("currency", Json.str c),
              ("count", Json.num n)] =>
      if n < 0 then none else some ⟨p, t, tot, c, n.toNat⟩
  | _ => none

/-- The cache key built at `cache.py:18`:
`cache_key = f"revenue:\x7btenant_id\x7d:\x7bproperty_id\x7d"`. -/
def cache_key (property_id tenant_id : String) : String :=
  "revenue:" ++ tenant_id ++ ":" ++ property_id

/-- The redis store: entries are (key, value, absolute expiry instant). -/
structure Cache where
  entries : List (String × Json × Int)

/-- `redis_client.get key` at instant `now`: the stored value while
`now` is strictly before the entry's expiry, otherwise absent. -/
def Cache.get (c : Cache) (now : Int) (key : String) : Option Json :=
  match c.entries.find? (fun e => e.1 == key) with
  | some (_, v, exp) => if now < exp then some v else none
  | none => none

/-- `redis_client.setex key ttl v` at instant `now`: (re)binds `key` to
`v` with expiry `now + ttl`. -/
def Cache.setex (c : Cache) (now : Int) (key : String) (ttl : Int) (v : Json) : Cache :=
  ⟨(key, v, now + ttl) :: c.entries.filter (fun e => e.1 != key)⟩

/-- A redis operation raising (connection down, timeout, ...). -/
inductive CacheErr where
  | unavailable : CacheErr
deriving DecidableEq, Repr

/-- An exception inside the aggregation `try:` blocks: database pool setup
fails, the scoped session cannot be produced (this also covers the explicit
`raise` when `session_factory` is falsy), or the query raises. -/
inductive DbErr where
  | poolUnavailable : DbErr
  | sessionFailure : DbErr
  | queryFault : DbErr
deriving DecidableEq, Repr

/-- A row of the `reservations` table: `check_in_date` is a UTC instant
(seconds), `total_amount` an exact fixed-point amount. -/
structure Reservation where
  property_id : String
  tenant_id : String
  check_in_date : Int
  total_amount : Int
deriving DecidableEq, Repr

/-- A row of the `properties` table. -/
structure Property where
  id : String
  tenant_id : String
  timezone : String
deriving DecidableEq, Repr

/-- The relational store the queries run against. -/
structure Database where
  reservations : List Reservation
  properties : List Property
deriving DecidableEq, Repr

/-- A Python naive `datetime` value, as built by `datetime(year, month, 1)`
in `calculate_monthly_revenue` and as produced by the SQL timezone
reprojection of `check_in_date`. -/
structure NaiveDateTime where
  year : Int
  month : Nat
  day : Nat
  hour : Nat
  minute : Nat
  second : Nat
deriving DecidableEq, Repr

/-- Strict comparison of naive timestamps: field-lexicographic, as Python
`datetime` comparison and SQL `timestamp` comparison both are. -/
def NaiveDateTime.ltb (a b : NaiveDateTime) : Bool :=
  if a.year = b.year then
    if a.month = b.month then
      if a.day = b.day then
        if a.hour = b.hour then
          if a.minute = b.minute then decide (a.second < b.second)
          else decide (a.minute < b.minute)
        else decide (a.hour < b.hour)
      else decide (a.day < b.day)
    else decide (a.month < b.month)
  else decide (a.year < b.year)

/-- Non-strict comparison: `a <= b` iff not `b < a` (the order is total). -/
def NaiveDateTime.leb (a b : NaiveDateTime) : Bool :=
  !(NaiveDateTime.ltb b a)

/-- The month-range boundaries of `reservations.py:30-34`:
`start_date = datetime(year, month, 1)` and
`end_date = datetime(year, month + 1, 1)` when `month < 12`,
`datetime(year + 1, 1, 1)` otherwise. -/
def monthBounds (month : Nat) (year : Int) : NaiveDateTime × NaiveDateTime :=
  (⟨year, month, 1, 0, 0, 0⟩,
   if month < 12 then ⟨year, month + 1, 1, 0, 0, 0⟩
   else ⟨year + 1, 1, 1, 0, 0, 0⟩)

/-- The row set of
`reservations r INNER JOIN properties p ON r.property_id = p.id AND r.tenant_id = p.tenant_id`. -/
def joinedRows (db : Database) : List (Reservation × Property) :=
  db.reservations.flatMap (fun r =>
    (db.properties.filter
      (fun p => r.property_id == p.id && r.tenant_id == p.tenant_id)).map
      (fun p => (r, p)))

/-- The rows the total-revenue query aggregates:
the join filtered by `r.property_id = :property_id AND r.tenant_id = :tenant_id`. -/
def totalRevenueRows (db : Database) (property_id tenant_id : String) :
    List (Reservation × Property) :=
  (joinedRows db).filter
    (fun rp => rp.1.property_id == property_id && rp.1.tenant_id == tenant_id)

/-- The rows the monthly-revenue query sums: the join filtered by
property, tenant, and the half-open range test
`(r.check_in_date AT TIME ZONE \x27UTC\x27 AT TIME ZONE p.timezone) >= :start_date`
`AND (...) < :end_date`. -/
def monthlyRows (db : Database) (localize : String → Int → NaiveDateTime)
    (property_id tenant_id : String) (s e : NaiveDateTime) :
    List (Reservation × Property) :=
  (joinedRows db).filter
    (fun rp => rp.1.property_id == property_id && rp.1.tenant_id == tenant_id
      && NaiveDateTime.leb s (localize rp.2.timezone rp.1.check_in_date)
      && NaiveDateTime.ltb (localize rp.2.timezone rp.1.check_in_date) e)

/-- `SELECT SUM(r.total_amount)` over `monthlyRows` (SQL `SUM` of no rows is
`NULL`, which the Python `if row and row.total:` guard also turns into
`Decimal(\x270\x27)`, so the empty sum is `0` either way). -/
def monthlyQuerySum (db : Database) (localize : String → Int → NaiveDateTime)
    (property_id tenant_id : String) (s e : NaiveDateTime) : Int :=
  ((monthlyRows db localize property_id tenant_id s e).map
    (fun rp => rp.1.total_amount)).sum

/-- `calculate_monthly_revenue(property_id, month, year, tenant_id)`:
on a normal run, builds the month bounds and sums the matching rows; any
exception in the `try:` block is caught at `reservations.py:65-67` and
mapped to `Decimal(\x270\x27)`. -/
def calculate_monthly_revenue (dbRun : Except DbErr Database)
    (localize : String → Int → NaiveDateTime)
    (property_id : String) (month : Nat) (year : Int) (tenant_id : String) : Int :=
  match dbRun with
  | Except.error _ => 0
  | Except.ok db =>
      let b := monthBounds month year
      monthlyQuerySum db localize property_id tenant_id b.1 b.2

/-- The static per-property table of `reservations.py:132-138`, used when
the database is unavailable. -/
def mock_data : List (String × String × Nat) :=
  [("prop-001", "1000.00", 3),
   ("prop-002", "4975.50", 4),
   ("prop-003", "6100.50", 2),
   ("prop-004", "1776.50", 4),
   ("prop-005", "3256.00", 3)]

/-- `mock_data.get(property_id, {"total": "0.00", "count": 0})`. -/
def mockLookup (property_id : String) : String × Nat :=
  match mock_data.find? (fun e => e.1 == property_id) with
  | some e => e.2
  | none => ("0.00", 0)

/-- The summary returned from the `except` branch of
`calculate_total_revenue` (`reservations.py:142-148`). -/
def fallbackSummary (property_id tenant_id : String) : RevenueSummary :=
  ⟨property_id, tenant_id, (mockLookup property_id).1, "USD",
   (mockLookup property_id).2⟩

/-- `calculate_total_revenue(property_id, tenant_id)`: on a normal run,
aggregates the matching rows (`fetchone` yields a group row exactly when at
least one joined row matches; otherwise the literal zero summary of
`reservations.py:117-123` is returned); any exception in the `try:` block
is caught at `reservations.py:127` and answered with the mock-table
summary.  `decToStr` is the decimal rendering
`str(Decimal(str(row.total_revenue)))` of the summed amount. -/
def calculate_total_revenue (dbRun : Except DbErr Database)
    (decToStr : Int → String) (property_id tenant_id : String) : RevenueSummary :=
  match dbRun with
  | Except.error _ => fallbackSummary property_id tenant_id
  | Except.ok db =>
      let rows := totalRevenueRows db property_id tenant_id
      if rows.isEmpty then ⟨property_id, tenant_id, "0.00", "USD", 0⟩
      else
        ⟨property_id, tenant_id,
         decToStr ((rows.map (fun rp => rp.1.total_amount)).sum),
         "USD", rows.length⟩

/-- `get_revenue_summary(property_id, tenant_id)` of `cache.py:10-35`:
build the key, read the cache (a raising read propagates — there is no
`try/except` in `cache.py`), return a hit as-is; on a miss compute via
`calculate_total_revenue`, write with `setex(key, 300, ...)` (a raising
write also propagates, losing the computed result), and return the fresh
value.  The result triple carries the returned JSON dict, the cache state
after the call, and whether the aggregation ran. -/
def get_revenue_summary (readFails writeFails : Bool) (cache : Cache)
    (now : Int) (dbRun : Except DbErr Database) (decToStr : Int → String)
    (property_id tenant_id : String) :
    Except CacheErr (Json × Cache × Bool) :=
  let key := cache_key property_id tenant_id
  if readFails then Except.error CacheErr.unavailable
  else
    match cache.get now key with
    | some v => Except.ok (v, cache, false)
    | none =>
        let result :=
          serializeSummary (calculate_total_revenue dbRun decToStr property_id tenant_id)
        if writeFails then Except.error CacheErr.unavailable
        else Except.ok (result, cache.setex now key 300 result, true)

/-! Shared lemmas about the naive-timestamp order. -/

theorem ltb_irrefl (d : NaiveDateTime) : NaiveDateTime.ltb d d = false := by
  simp [NaiveDateTime.ltb]

theorem leb_refl (d : NaiveDateTime) : NaiveDateTime.leb d d = true := by
  simp [NaiveDateTime.leb, ltb_irrefl]

theorem ltb_of_month_lt {y : Int} {m m2 d d2 h h2 mi mi2 s s2 : Nat}
    (hmm : m < m2) :
    NaiveDateTime.ltb ⟨y, m, d, h, mi, s⟩ ⟨y, m2, d2, h2, mi2, s2⟩ = true := by
  have hne : m ≠ m2 := Nat.ne_of_lt hmm
  simp [NaiveDateTime.ltb, hne, hmm]

theorem ltb_of_year_lt {y y2 : Int} {m m2 d d2 h h2 mi mi2 s s2 : Nat}
    (hyy : y < y2) :
    NaiveDateTime.ltb ⟨y, m, d, h, mi, s⟩ ⟨y2, m2, d2, h2, mi2, s2⟩ = true := by
  have hne : y ≠ y2 := ne_of_lt hyy
  simp [NaiveDateTime.ltb, hne, hyy]

/-- C1: `get_revenue_summary` builds its cache key as exactly
`"revenue:" ++ tenant_id ++ ":" ++ property_id` (namespace, tenant,
property, colon-delimited), and for one property id two distinct tenant
ids always yield two distinct keys. -/
theorem C1_cache_key_tenant_isolation (P T1 T2 : String) (h : T1 ≠ T2) :
    cache_key P T1 = "revenue:" ++ T1 ++ ":" ++ P ∧
    cache_key P T1 ≠ cache_key P T2 := by
  refine ⟨rfl, ?_⟩
  intro heq
  apply h
  have hd := congrArg String.data heq
  simp only [cache_key, String.data_append, List.append_assoc] at hd
  exact String.ext (List.append_cancel_right (List.append_cancel_left hd))

/-- Witness for C1 at property `prop-001` and tenants `t-1`, `t-2`. -/
theorem C1_cache_key_tenant_isolation_witness :
    ("t-1" : String) ≠ "t-2" ∧
    (cache_key "prop-001" "t-1" = "revenue:" ++ "t-1" ++ ":" ++ "prop-001" ∧
     cache_key "prop-001" "t-1" ≠ cache_key "prop-001" "t-2") :=
  ⟨by decide, C1_cache_key_tenant_isolation "prop-001" "t-1" "t-2" (by decide)⟩

/-- C4: for a month in 1..12, the query boundaries are the first moment of
`(year, month)` and the first moment of the following month, December
rolling the year forward to January. -/
theorem C4_month_bounds (m : Nat) (y : Int) (h1 : 1 ≤ m) (h2 : m ≤ 12) :
    (monthBounds m y).1 = ⟨y, m, 1, 0, 0, 0⟩ ∧
    (m < 12 → (monthBounds m y).2 = ⟨y, m + 1, 1, 0, 0, 0⟩) ∧
    (m = 12 → (monthBounds m y).2 = ⟨y + 1, 1, 1, 0, 0, 0⟩) := by
  refine ⟨rfl, fun hm => ?_, fun hm => ?_⟩ <;> simp [monthBounds, hm]

/-- Witness for C4 at December 2023 (the year-rolling case). -/
theorem C4_month_bounds_witness :
    1 ≤ 12 ∧ 12 ≤ 12 ∧
    ((monthBounds 12 2023).1 = ⟨2023, 12, 1, 0, 0, 0⟩ ∧
     (12 < 12 → (monthBounds 12 2023).2 = ⟨2023, 12 + 1, 1, 0, 0, 0⟩) ∧
     (12 = 12 → (monthBounds 12 2023).2 = ⟨2023 + 1, 1, 1, 0, 0, 0⟩)) :=
  ⟨by decide, by decide, C4_month_bounds 12 2023 (by decide) (by decide)⟩

/-- C5: on a normal run in which no reservation row matches the
(property, tenant) pair, `calculate_total_revenue` returns the valid zero
summary `{total: "0.00", currency: "USD", count: 0}`, not an error. -/
theorem C5_zero_result (db : Database) (f : Int → String) (pid tid : String)
    (h : totalRevenueRows db pid tid = []) :
    calculate_total_revenue (Except.ok db) f pid tid =
      ⟨pid, tid, "0.00", "USD", 0⟩ := by
  simp [calculate_total_revenue, h]

/-- Witness for C5 on the empty database. -/
theorem C5_zero_result_witness :
    totalRevenueRows ⟨[], []⟩ "prop-009" "t-1" = [] ∧
    calculate_total_revenue (Except.ok ⟨[], []⟩) (fun n => toString n)
      "prop-009" "t-1" = ⟨"prop-009", "t-1", "0.00", "USD", 0⟩ :=
  ⟨rfl, C5_zero_result ⟨[], []⟩ (fun n => toString n) "prop-009" "t-1" rfl⟩

/-- C8: serializing a `RevenueSummary` for the cache and deserializing it
recovers every field; the decimal total is carried as a string, so its
exact string form (e.g. `"1000.00"`) is preserved. -/
theorem C8_serialize_roundtrip (s : RevenueSummary) :
    deserializeSummary (serializeSummary s) = some s := by
  simp [serializeSummary, deserializeSummary]

/-- C9: in the degraded mode taken when the database run fails, the
returned total, count and currency depend only on the property id (two
tenants get identical figures from the fixed five-entry mock table, with
the zero default off-table); only the echoed tenant id differs, so the
degraded figures are not tenant-isolated. -/
theorem C9_degraded_mode_tenant_independent (e1 e2 : DbErr)
    (f g : Int → String) (P T1 T2 : String) :
    (calculate_total_revenue (Except.error e1) f P T1).total =
      (calculate_total_revenue (Except.error e2) g P T2).total ∧
    (calculate_total_revenue (Except.error e1) f P T1).count =
      (calculate_total_revenue (Except.error e2) g P T2).count ∧
    (calculate_total_revenue (Except.error e1) f P T1).currency =
      (calculate_total_revenue (Except.error e2) g P T2).currency ∧
    (calculate_total_revenue (Except.error e1) f P T1).tenant_id = T1 ∧
    (calculate_total_revenue (Except.error e2) g P T2).tenant_id = T2 ∧
    (calculate_total_revenue (Except.error e1) f P T1).total = (mockLookup P).1 ∧
    (calculate_total_revenue (Except.error e1) f P T1).count = (mockLookup P).2 ∧
    mock_data.length = 5 ∧
    (calculate_total_revenue (Except.error e1) f P T1).total =
      ((mock_data.find? (fun x => x.1 == P)).map (fun x => x.2.1)).getD "0.00" ∧
    (calculate_total_revenue (Except.error e1) f P T1).count =
      ((mock_data.find? (fun x => x.1 == P)).map (fun x => x.2.2)).getD 0 := by
  refine ⟨rfl, rfl, rfl, rfl, rfl, rfl, rfl, rfl, ?_, ?_⟩ <;>
    cases h : mock_data.find? (fun x => x.1 == P) <;>
      simp [calculate_total_revenue, fallbackSummary, mockLookup, h]

/-- Witness for C9 at `prop-002` with tenants `t-1` and `t-2`. -/
theorem C9_degraded_mode_tenant_independent_witness :
    (calculate_total_revenue (Except.error DbErr.poolUnavailable)
        (fun n => toString n) "prop-002" "t-1").total =
      (calculate_total_revenue (Except.error DbErr.queryFault)
        (fun n => toString n) "prop-002" "t-2").total ∧
    (calculate_total_revenue (Except.error DbErr.poolUnavailable)
        (fun n => toString n) "prop-002" "t-1").count =
      (calculate_total_revenue (Except.error DbErr.queryFault)
        (fun n => toString n) "prop-002" "t-2").count :=
  ⟨(C9_degraded_mode_tenant_independent DbErr.poolUnavailable DbErr.queryFault
      (fun n => toString n) (fun n => toString n) "prop-002" "t-1" "t-2").1,
   (C9_degraded_mode_tenant_independent DbErr.poolUnavailable DbErr.queryFault
      (fun n => toString n) (fun n => toString n) "prop-002" "t-1" "t-2").2.1⟩

/-- C10: `calculate_monthly_revenue` never propagates a data-access
exception: every failing run (pool setup, session acquisition, query
execution) is answered with the exact decimal zero — the same value a
genuinely revenue-free month produces, so the two are indistinguishable. -/
theorem C10_monthly_failure_is_zero (e : DbErr)
    (localize : String → Int → NaiveDateTime)
    (pid : String) (m : Nat) (y : Int) (tid : String) :
    calculate_monthly_revenue (Except.error e) localize pid m y tid = 0 ∧
    calculate_monthly_revenue (Except.ok ⟨[], []⟩) localize pid m y tid = 0 :=
  ⟨rfl, rfl⟩

/-- C2 counterexample: with the mock fallback of `reservations.py:130-148`,
a run whose aggregation query raises does NOT surface an error — at
property `prop-001`, tenant `t-9`, it returns the synthesized summary
`{total: "1000.00", count: 3}` drawn from the static table, a value not
computed from any stored data. -/
theorem C2_counterexample_mock_fallback :
    calculate_total_revenue (Except.error DbErr.queryFault)
      (fun n => toString n) "prop-001" "t-9" =
      ⟨"prop-001", "t-9", "1000.00", "USD", 3⟩ := rfl

/-- C2 amended: on every failing run (session unavailable or query fault),
`calculate_total_revenue` catches the exception and returns the
degraded-mode summary from the fixed per-property mock table (currency
`"USD"`, tenant id merely echoed) instead of failing, and
`calculate_monthly_revenue` likewise returns zero instead of failing. -/
theorem C2_failure_returns_mock (e : DbErr) (f : Int → String)
    (localize : String → Int → NaiveDateTime)
    (pid tid : String) (m : Nat) (y : Int) :
    calculate_total_revenue (Except.error e) f pid tid =
      fallbackSummary pid tid ∧
    (fallbackSummary pid tid).currency = "USD" ∧
    (fallbackSummary pid tid).property_id = pid ∧
    (fallbackSummary pid tid).tenant_id = tid ∧
    calculate_monthly_revenue (Except.error e) localize pid m y tid = 0 :=
  ⟨rfl, rfl, rfl, rfl, rfl⟩

/-- C6: `cache.py` has no exception handling around the redis calls, so a
raising cache read at `cache.py:21` propagates to the caller (it is not
treated as a miss — the computation path never runs), and a raising cache
write at `cache.py:33` also propagates, losing the freshly computed
result; shown here on the empty cache at `prop-001`, tenant `t-1`. -/
theorem C6_cache_fault_propagates :
    get_revenue_summary true false ⟨[]⟩ 0 (Except.error DbErr.poolUnavailable)
      (fun n => toString n) "prop-001" "t-1" =
      Except.error CacheErr.unavailable ∧
    get_revenue_summary false true ⟨[]⟩ 0 (Except.error DbErr.poolUnavailable)
      (fun n => toString n) "prop-001" "t-1" =
      Except.error CacheErr.unavailable :=
  ⟨rfl, rfl⟩

/-- C3: the monthly query keeps exactly the joined rows of the requested
(property, tenant) whose check-in instant, reprojected into the property's
named timezone, lies in the half-open range `[start, end)`; consequently a
reservation whose local check-in is exactly the first instant of month `m`
is counted in month `m` and not in the preceding month. -/
theorem C3_half_open_month_boundary (db : Database)
    (localize : String → Int → NaiveDateTime) (pid tid : String)
    (m : Nat) (y : Int) (r : Reservation) (p : Property)
    (hm1 : 1 ≤ m) (hm2 : m ≤ 12)
    (hmem : (r, p) ∈ joinedRows db)
    (hpid : r.property_id = pid) (htid : r.tenant_id = tid)
    (hb : localize p.timezone r.check_in_date = ⟨y, m, 1, 0, 0, 0⟩) :
    (∀ s e rp, rp ∈ monthlyRows db localize pid tid s e ↔
      (rp ∈ joinedRows db ∧ rp.1.property_id = pid ∧ rp.1.tenant_id = tid ∧
       NaiveDateTime.leb s (localize rp.2.timezone rp.1.check_in_date) = true ∧
       NaiveDateTime.ltb (localize rp.2.timezone rp.1.check_in_date) e = true)) ∧
    (r, p) ∈ monthlyRows db localize pid tid
      (monthBounds m y).1 (monthBounds m y).2 ∧
    (r, p) ∉ monthlyRows db localize pid tid
      (monthBounds (if m = 1 then 12 else m - 1) (if m = 1 then y - 1 else y)).1
      (monthBounds (if m = 1 then 12 else m - 1) (if m = 1 then y - 1 else y)).2 := by
  have hchar : ∀ s e rp, rp ∈ monthlyRows db localize pid tid s e ↔
      (rp ∈ joinedRows db ∧ rp.1.property_id = pid ∧ rp.1.tenant_id = tid ∧
       NaiveDateTime.leb s (localize rp.2.timezone rp.1.check_in_date) = true ∧
       NaiveDateTime.ltb (localize rp.2.timezone rp.1.check_in_date) e = true) := by
    intro s e rp
    simp [monthlyRows, List.mem_filter, and_assoc]
  refine ⟨hchar, ?_, ?_⟩
  · refine (hchar _ _ _).mpr ⟨hmem, hpid, htid, ?_, ?_⟩
    · rw [hb]
      exact leb_refl _
    · rw [hb]
      by_cases h12 : m < 12
      · have he : (monthBounds m y).2 = ⟨y, m + 1, 1, 0, 0, 0⟩ := by
          simp [monthBounds, h12]
        rw [he]
        exact ltb_of_month_lt (Nat.lt_succ_self m)
      · have he : (monthBounds m y).2 = ⟨y + 1, 1, 1, 0, 0, 0⟩ := by
          simp [monthBounds, h12]
        rw [he]
        exact ltb_of_year_lt (by omega)
  · intro hmem2
    have hlt := ((hchar _ _ _).mp hmem2).2.2.2.2
    rw [hb] at hlt
    by_cases h1 : m = 1
    · subst h1
      have he : (monthBounds (if 1 = 1 then 12 else 1 - 1)
          (if 1 = 1 then y - 1 else y)).2 = ⟨y, 1, 1, 0, 0, 0⟩ := by
        simp [monthBounds]
      rw [he, ltb_irrefl] at hlt
      exact Bool.false_ne_true hlt
    · have he : (monthBounds (if m = 1 then 12 else m - 1)
          (if m = 1 then y - 1 else y)).2 = ⟨y, m, 1, 0, 0, 0⟩ := by
        have hlt12 : m - 1 < 12 := by omega
        simp [monthBounds, h1, hlt12]
        omega
      rw [he, ltb_irrefl] at hlt
      exact Bool.false_ne_true hlt

/-- Witness for C3: one reservation whose local check-in is exactly
1 March 2024 00:00:00 is in the March 2024 rows and not in the
February 2024 rows. -/
theorem C3_half_open_month_boundary_witness :
    1 ≤ 3 ∧ 3 ≤ 12 ∧
    (⟨"prop-001", "t-1", 1000, 500⟩, ⟨"prop-001", "t-1", "America/New_York"⟩) ∈
      joinedRows ⟨[⟨"prop-001", "t-1", 1000, 500⟩],
                  [⟨"prop-001", "t-1", "America/New_York"⟩]⟩ ∧
    ((fun (_ : String) (_ : Int) => (⟨2024, 3, 1, 0, 0, 0⟩ : NaiveDateTime))
        "America/New_York" 1000 = (⟨2024, 3, 1, 0, 0, 0⟩ : NaiveDateTime)) ∧
    ((∀ s e rp, rp ∈ monthlyRows
        ⟨[⟨"prop-001", "t-1", 1000, 500⟩],
         [⟨"prop-001", "t-1", "America/New_York"⟩]⟩
        (fun _ _ => ⟨2024, 3, 1, 0, 0, 0⟩) "prop-001" "t-1" s e ↔
      (rp ∈ joinedRows ⟨[⟨"prop-001", "t-1", 1000, 500⟩],
                        [⟨"prop-001", "t-1", "America/New_York"⟩]⟩ ∧
       rp.1.property_id = "prop-001" ∧ rp.1.tenant_id = "t-1" ∧
       NaiveDateTime.leb s ((fun (_ : String) (_ : Int) =>
         (⟨2024, 3, 1, 0, 0, 0⟩ : NaiveDateTime)) rp.2.timezone
           rp.1.check_in_date) = true ∧
       NaiveDateTime.ltb ((fun (_ : String) (_ : Int) =>
         (⟨2024, 3, 1, 0, 0, 0⟩ : NaiveDateTime)) rp.2.timezone
           rp.1.check_in_date) e = true)) ∧
    (⟨"prop-001", "t-1", 1000, 500⟩, ⟨"prop-001", "t-1", "America/New_York"⟩) ∈
      monthlyRows ⟨[⟨"prop-001", "t-1", 1000, 500⟩],
                   [⟨"prop-001", "t-1", "America/New_York"⟩]⟩
        (fun _ _ => ⟨2024, 3, 1, 0, 0, 0⟩) "prop-001" "t-1"
        (monthBounds 3 2024).1 (monthBounds 3 2024).2 ∧
    (⟨"prop-001", "t-1", 1000, 500⟩, ⟨"prop-001", "t-1", "America/New_York"⟩) ∉
      monthlyRows ⟨[⟨"prop-001", "t-1", 1000, 500⟩],
                   [⟨"prop-001", "t-1", "America/New_York"⟩]⟩
        (fun _ _ => ⟨2024, 3, 1, 0, 0, 0⟩) "prop-001" "t-1"
        (monthBounds (if 3 = 1 then 12 else 3 - 1)
          (if 3 = 1 then 2024 - 1 else 2024)).1
        (monthBounds (if 3 = 1 then 12 else 3 - 1)
          (if 3 = 1 then 2024 - 1 else 2024)).2) :=
  ⟨by decide, by decide, by decide, rfl,
   C3_half_open_month_boundary
     ⟨[⟨"prop-001", "t-1", 1000, 500⟩],
      [⟨"prop-001", "t-1", "America/New_York"⟩]⟩
     (fun _ _ => ⟨2024, 3, 1, 0, 0, 0⟩) "prop-001" "t-1" 3 2024
     ⟨"prop-001", "t-1", 1000, 500⟩ ⟨"prop-001", "t-1", "America/New_York"⟩
     (by decide) (by decide) (by decide) rfl rfl rfl⟩

/-- C7: with the cache available, a first call at `t0` that misses
computes the summary, stores it, and returns it with the aggregation
invoked; a second call at any `t1` inside the 300-second TTL window finds
the entry, returns the identical value from the hit branch, leaves the
cache unchanged, and does not invoke the aggregation again. -/
theorem C7_ttl_idempotence (c : Cache) (t0 t1 : Int)
    (dbRun : Except DbErr Database) (f : Int → String) (pid tid : String)
    (hmiss : c.get t0 (cache_key pid tid) = none)
    (h01 : t0 ≤ t1) (h1 : t1 < t0 + 300) :
    ∃ v c2,
      get_revenue_summary false false c t0 dbRun f pid tid =
        Except.ok (v, c2, true) ∧
      get_revenue_summary false false c2 t1 dbRun f pid tid =
        Except.ok (v, c2, false) := by
  have hget : (Cache.setex c t0 (cache_key pid tid) 300
      (serializeSummary (calculate_total_revenue dbRun f pid tid))).get t1
        (cache_key pid tid)
      = some (serializeSummary (calculate_total_revenue dbRun f pid tid)) := by
    simp [Cache.get, Cache.setex, h1]
  refine ⟨serializeSummary (calculate_total_revenue dbRun f pid tid),
    Cache.setex c t0 (cache_key pid tid) 300
      (serializeSummary (calculate_total_revenue dbRun f pid tid)), ?_, ?_⟩
  · simp [get_revenue_summary, hmiss]
  · simp [get_revenue_summary, hget]

/-- Witness for C7: empty cache, first call at instant 0, second call at
instant 299 (inside the 300-second window). -/
theorem C7_ttl_idempotence_witness :
    Cache.get ⟨[]⟩ 0 (cache_key "prop-002" "t-9") = none ∧
    (0 : Int) ≤ 299 ∧ (299 : Int) < 0 + 300 ∧
    (∃ v c2,
      get_revenue_summary false false ⟨[]⟩ 0
        (Except.error DbErr.poolUnavailable) (fun n => toString n)
        "prop-002" "t-9" = Except.ok (v, c2, true) ∧
      get_revenue_summary false false c2 299
        (Except.error DbErr.poolUnavailable) (fun n => toString n)
        "prop-002" "t-9" = Except.ok (v, c2, false)) :=
  ⟨rfl, by decide, by decide,
   C7_ttl_idempotence ⟨[]⟩ 0 299 (Except.error DbErr.poolUnavailable)
     (fun n => toString n) "prop-002" "t-9" rfl (by decide) (by decide)⟩

end RevSvc
